import Mathlib

/-
Verification of the photowall presentation-api sample.

Shallow embedding of:
  - src/photowall/app/scripts/constants.js   (photowall constants and the
    SlideshowAction enum),
  - src/photowall/app/scripts/receiver.js    (slideshow state machine:
    addConnection message dispatch, addImage, removeImage, changeDelay,
    changeAnimation, showNextImage, preloadNextImage, sendMessage,
    broadcastMessage, nextImageTimeout),
  - src/photowall/app/scripts/presentation_polyfill.js and
    src/unnamed/part_001 (window-message handler of the
    PresentationReceiver: NEW_CONNECTION and APP_MESSAGE cases),
  - src/unnamed/part_000 (the const/let variant of receiver.js, whose
    addConnection defers the initial state send to an onconnect handler).

Modelling conventions:
  - JavaScript numbers that are only ever integers here (indices, ids,
    delays) are Int or Nat; slideshow.currentImageIndex is Int because the
    handlers transiently decrement it below zero.
  - DOM and network side effects are recorded in explicit event logs:
    DisplayEvent for the #slideshow DOM and Image() preloads, and send
    lists (connection id paired with the transmitted string) for
    connection.send.
  - setTimeout and clearTimeout are modelled by a list of live timer ids
    plus a fresh-id counter; browser timer ids are positive, so the
    counter starts at 1 (matching the truthiness test
    "if (nextImageTimeout)" in showNextImage).
  - An out-of-bounds array read followed by a property access (which
    would throw in JavaScript) is modelled by returning none.
-/

namespace Photowall

/-- Default slideshow delay in milliseconds (constants.js). -/
def DEFAULT_SLIDESHOW_DELAY : Int := 5000

/-- Default slideshow animation (constants.js). -/
def DEFAULT_SLIDESHOW_ANIMATION : String := "fadeIn"

/-- Enum for slideshow actions (constants.js, photowall.SlideshowAction). -/
def ADD_IMAGE : String := "addImage"

/-- Enum value photowall.SlideshowAction.REMOVE_IMAGE. -/
def REMOVE_IMAGE : String := "removeImage"

/-- Enum value photowall.SlideshowAction.CHANGE_DELAY. -/
def CHANGE_DELAY : String := "changeDelay"

/-- Enum value photowall.SlideshowAction.CHANGE_ANIMATION. -/
def CHANGE_ANIMATION : String := "changeAnimation"

/-- An image in the slideshow: the url carried by the controller's message
and the id attached by addImage from the image sequence counter.
Other payload fields (e.g. the thumbnail url) play no role in the
receiver's logic and are elided. -/
structure SlideImage where
  url : String
  id : Nat
deriving Repr, DecidableEq

/-- The mutable slideshow object of receiver.js: list of images, delay in
milliseconds, animation name, and index of the image currently shown. -/
structure Slideshow where
  images : List SlideImage
  delay : Int
  animation : String
  currentImageIndex : Int
deriving Repr, DecidableEq

/-- Observable DOM effects of the receiver: clearing the #slideshow
container, appending an img for the current image (with its animation
class), and creating an Image() to preload a url. -/
inductive DisplayEvent where
  | clearDisplay : DisplayEvent
  | showImage (url : String) (animation : String) : DisplayEvent
  | preloadImage (url : String) : DisplayEvent
deriving Repr, DecidableEq

/-- Whole receiver-page state: the slideshow object, the imageSequence
counter, the nextImageTimeout variable, the browser timer runtime (fresh
id counter and the list of pending timeouts), and the DOM event log. -/
structure ReceiverState where
  slideshow : Slideshow
  imageSequence : Nat
  nextImageTimeout : Option Nat
  nextTimerId : Nat
  liveTimers : List Nat
  events : List DisplayEvent
deriving Repr, DecidableEq

/-- JavaScript array indexing images[i] for a possibly negative Int index:
undefined (none) when out of range. -/
def jsIndex (l : List SlideImage) (i : Int) : Option SlideImage :=
  if 0 ≤ i then l.get? i.toNat else none

/-- The clearTimeout(nextImageTimeout) guarded by "if (nextImageTimeout)"
at the top of showNextImage. A null timeout, or timer id 0, is falsy and
is not cleared; browser ids are positive so id 0 never occurs. -/
def clearScheduled (s : ReceiverState) : ReceiverState :=
  match s.nextImageTimeout with
  | some t => if t ≠ 0 then { s with liveTimers := s.liveTimers.erase t } else s
  | none => s

/-- preloadNextImage of receiver.js: compute the cyclic successor of
currentImageIndex and, when the slideshow holds more than one image,
create an Image() with the successor's url. -/
def preloadNextImage (s : ReceiverState) : Option ReceiverState :=
  let sl := s.slideshow
  let n1 := sl.currentImageIndex + 1
  let nextImageIndex : Int := if n1 ≥ (sl.images.length : Int) then 0 else n1
  if 1 < sl.images.length then
    match jsIndex sl.images nextImageIndex with
    | none => none
    | some nextImage =>
      some { s with events := s.events ++ [DisplayEvent.preloadImage nextImage.url] }
  else
    some s

/-- showNextImage of receiver.js: clear any scheduled timeout, increment
currentImageIndex, wrap it to 0 at the end of the list, then either clear
the display (no images) or show the current image, preload the next one
and schedule the next cycle after the slideshow delay. -/
def showNextImage (s : ReceiverState) : Option ReceiverState :=
  let s1 := clearScheduled s
  let idx1 := s1.slideshow.currentImageIndex + 1
  let idx : Int := if idx1 ≥ (s1.slideshow.images.length : Int) then 0 else idx1
  let sl := { s1.slideshow with currentImageIndex := idx }
  if sl.images.length = 0 then
    some { s1 with slideshow := sl, events := s1.events ++ [DisplayEvent.clearDisplay] }
  else
    match jsIndex sl.images idx with
    | none => none
    | some currentImage =>
      let ev := DisplayEvent.showImage currentImage.url sl.animation
      let s2 := { s1 with slideshow := sl, events := s1.events ++ [ev] }
      match preloadNextImage s2 with
      | none => none
      | some s3 =>
        some { s3 with
               nextImageTimeout := some s3.nextTimerId,
               nextTimerId := s3.nextTimerId + 1,
               liveTimers := s3.liveTimers ++ [s3.nextTimerId] }

/-- The first two statements of addImage in receiver.js: attach the next
sequence id to the incoming image (getImageId returns imageSequence and
increments it) and push the image onto the slideshow. -/
def pushImage (s : ReceiverState) (url : String) : ReceiverState :=
  { s with
    slideshow := { s.slideshow with
      images := s.slideshow.images ++ [{ url := url, id := s.imageSequence }] },
    imageSequence := s.imageSequence + 1 }

/-- addImage of receiver.js: attach the next sequence id to the incoming
image, push it, preload it when it is exactly the next image to be shown
(currentImageIndex + 2 equals the new length), and cycle immediately when
it is the first image. -/
def addImage (s : ReceiverState) (url : String) : Option ReceiverState :=
  let s1 := pushImage s url
  (if s1.slideshow.currentImageIndex + 2 = (s1.slideshow.images.length : Int) then
     preloadNextImage s1
   else some s1).bind
    (fun s2 => if s2.slideshow.images.length = 1 then showNextImage s2 else some s2)

/-- The splice call of removeImage together with an assignment of
currentImageIndex: remove the image at the given position and store the
given index. -/
def spliceAt (s : ReceiverState) (imageIndex : Nat) (newCur : Int) : ReceiverState :=
  { s with slideshow := { s.slideshow with
      images := s.slideshow.images.eraseIdx imageIndex,
      currentImageIndex := newCur } }

/-- removeImage of receiver.js. Array.prototype.some stops at the first
image whose id matches (ids are distinct objects, so indexOf returns that
image's position), splice removes it, and then TWO SEQUENTIAL if
statements adjust currentImageIndex: the first decrements it when the
removed position is before it, the second compares against the ALREADY
DECREMENTED index, decrements once more and calls showNextImage when they
are equal. Returns the state and the boolean result of some. -/
def removeImage (s : ReceiverState) (id : Int) : Option (ReceiverState × Bool) :=
  match s.slideshow.images.findIdx? (fun image => (image.id : Int) = id) with
  | none => some (s, false)
  | some imageIndex =>
    let cur := s.slideshow.currentImageIndex
    let cur1 := if (imageIndex : Int) < cur then cur - 1 else cur
    if (imageIndex : Int) = cur1 then
      (showNextImage (spliceAt s imageIndex (cur1 - 1))).map (fun s2 => (s2, true))
    else
      some (spliceAt s imageIndex cur1, true)

/-- The first two statements of changeDelay in receiver.js: store the new
delay and step the index back by one. -/
def setDelayStepBack (s : ReceiverState) (delay : Int) : ReceiverState :=
  { s with slideshow := { s.slideshow with delay := delay, currentImageIndex := s.slideshow.currentImageIndex - 1 } }

/-- changeDelay of receiver.js: store the new delay, step the index back
by one and rerun showNextImage so the current image restarts with the new
delay. -/
def changeDelay (s : ReceiverState) (delay : Int) : Option ReceiverState :=
  showNextImage (setDelayStepBack s delay)

/-- changeAnimation of receiver.js: store the new animation name. -/
def changeAnimation (s : ReceiverState) (animation : String) : ReceiverState :=
  { s with slideshow := { s.slideshow with animation := animation } }

/-- Payload of a parsed controller message: an image object (url), a
number (image id or delay), or a string (animation name). -/
inductive MsgData where
  | image (url : String) : MsgData
  | num (n : Int) : MsgData
  | str (v : String) : MsgData
deriving Repr, DecidableEq

/-- A parsed controller message: JSON.parse(e.data) with an action field
and a data field. -/
structure JsonMessage where
  action : String
  data : MsgData
deriving Repr, DecidableEq

/-- The switch statement in addConnection's onmessage handler of
receiver.js: dispatch on the action field to the four slideshow
operations; an action outside the enum falls through the switch and
leaves the state untouched. A payload whose shape does not match its
action is outside the modelled behaviour (none). -/
def dispatchAction (s : ReceiverState) (m : JsonMessage) : Option ReceiverState :=
  if m.action = ADD_IMAGE then
    match m.data with
    | MsgData.image url => addImage s url
    | _ => none
  else if m.action = REMOVE_IMAGE then
    match m.data with
    | MsgData.num n => (removeImage s n).map Prod.fst
    | _ => none
  else if m.action = CHANGE_DELAY then
    match m.data with
    | MsgData.num n => changeDelay s n
    | _ => none
  else if m.action = CHANGE_ANIMATION then
    match m.data with
    | MsgData.str a => some (changeAnimation s a)
    | _ => none
  else
    some s

/-- JSON.stringify of a slideshow image object, fields in insertion
order. String payloads are modelled without escape sequences. -/
def imageToJson (image : SlideImage) : String :=
  "\x7b\"url\":\"" ++ image.url ++ "\",\"id\":" ++ toString image.id ++ "\x7d"

/-- JSON.stringify of the slideshow object, fields in declaration order:
images, delay, animation, currentImageIndex. -/
def slideshowToJson (sl : Slideshow) : String :=
  "\x7b\"images\":[" ++ String.intercalate "," (sl.images.map imageToJson) ++
    "],\"delay\":" ++ toString sl.delay ++
    ",\"animation\":\"" ++ sl.animation ++
    "\",\"currentImageIndex\":" ++ toString sl.currentImageIndex ++ "\x7d"

/-- A value handed to sendMessage: either already a string or the
slideshow object. -/
inductive JsValue where
  | strVal (s : String) : JsValue
  | objVal (sl : Slideshow) : JsValue
deriving Repr, DecidableEq

/-- sendMessage of receiver.js: JSON.stringify the message exactly when
it is an object, then connection.send it. Result: the connection
(identified by a numeric handle) paired with the transmitted string. -/
def sendMessage (connection : Nat) (message : JsValue) : Nat × String :=
  match message with
  | JsValue.objVal sl => (connection, slideshowToJson sl)
  | JsValue.strVal str => (connection, str)

/-- broadcastMessage of receiver.js: sendMessage to every connection in
the resolved connection list. -/
def broadcastMessage (connections : List Nat) (message : JsValue) : List (Nat × String) :=
  connections.map (fun connection => sendMessage connection message)

/-- One full run of the onmessage handler installed by addConnection in
receiver.js: dispatch the parsed message through the switch, then
broadcast the (possibly updated) slideshow state to all connections.
Returns the new state and the list of sends performed by the broadcast. -/
def connectionOnMessage (s : ReceiverState) (connections : List Nat) (m : JsonMessage) :
    Option (ReceiverState × List (Nat × String)) :=
  match dispatchAction s m with
  | none => none
  | some s' => some (s', broadcastMessage connections (JsValue.objVal s'.slideshow))

/-- The initial slideshow object of receiver.js. -/
def initialSlideshow : Slideshow :=
  { images := [], delay := DEFAULT_SLIDESHOW_DELAY,
    animation := DEFAULT_SLIDESHOW_ANIMATION, currentImageIndex := 0 }

/-- The initial receiver-page state: initial slideshow, imageSequence 0,
nextImageTimeout null, no pending timers, first browser timer id 1. -/
def initialReceiverState : ReceiverState :=
  { slideshow := initialSlideshow, imageSequence := 0, nextImageTimeout := none,
    nextTimerId := 1, liveTimers := [], events := [] }

end Photowall

namespace PresentationPolyfill

/-- A PresentationConnection created by the polyfill
(presentation_polyfill.js and src/unnamed/part_001): empty id, state
'connected', message origin and source captured from the window message.
The onmessage handler slot is modelled by whether a handler is set. -/
structure PresentationConnection where
  id : String
  state : String
  onmessage : Bool
  messageOrigin : String
  messageSource : Nat
deriving Repr, DecidableEq

/-- The polyfill's PresentationConnectionList: the connections array and
whether an onconnectionavailable handler is set. -/
structure PresentationConnectionList where
  connections : List PresentationConnection
  onconnectionavailable : Bool
deriving Repr, DecidableEq

/-- State of the polyfill's window-message listener: the connection list
under construction and the connectionListResolved flag.  -/
structure PolyfillState where
  connectionList : PresentationConnectionList
  connectionListResolved : Bool
deriving Repr, DecidableEq

/-- Observable effects of the polyfill listener: resolving the
connectionList promise, firing onconnectionavailable with the new
connection, and invoking the onmessage handler of the connection at a
given position with a MessageEvent carrying the data. -/
inductive PolyfillEvent where
  | promiseResolved : PolyfillEvent
  | connectionAvailable (c : PresentationConnection) : PolyfillEvent
  | messageDelivered (index : Nat) (data : String) : PolyfillEvent
deriving Repr, DecidableEq

/-- A message event arriving on the window: type tag, data payload,
origin and source. -/
structure WindowMessage where
  msgType : String
  data : String
  origin : String
  source : Nat
deriving Repr, DecidableEq

/-- The window message listener of the polyfill's PresentationReceiver.
NEW_CONNECTION: push a fresh connection (state connected) and either
resolve the promise (first time) or fire onconnectionavailable if set.
APP_MESSAGE: invoke onmessage of every connection that has a handler,
with a MessageEvent carrying the message data. Any other type is
ignored. -/
def handleWindowMessage (st : PolyfillState) (e : WindowMessage) :
    PolyfillState × List PolyfillEvent :=
  if e.msgType = "NEW_CONNECTION" then
    let c : PresentationConnection :=
      { id := "", state := "connected", onmessage := false,
        messageOrigin := e.origin, messageSource := e.source }
    let cl := { st.connectionList with connections := st.connectionList.connections ++ [c] }
    if st.connectionListResolved = false then
      ({ connectionList := cl, connectionListResolved := true },
        [PolyfillEvent.promiseResolved])
    else if cl.onconnectionavailable then
      ({ st with connectionList := cl }, [PolyfillEvent.connectionAvailable c])
    else
      ({ st with connectionList := cl }, [])
  else if e.msgType = "APP_MESSAGE" then
    (st, st.connectionList.connections.enum.filterMap (fun ic =>
      if ic.2.onmessage then some (PolyfillEvent.messageDelivered ic.1 e.data) else none))
  else
    (st, [])

/-- The initial polyfill state: empty connections array, no
onconnectionavailable handler, promise unresolved. -/
def initialPolyfillState : PolyfillState :=
  { connectionList := { connections := [], onconnectionavailable := false },
    connectionListResolved := false }

end PresentationPolyfill

namespace PhotowallVariant

open Photowall

/-- What addConnection installs and performs for a single connection:
the sends it performs immediately, whether it installs an onconnect
handler, and the sends that handler would perform when fired. -/
structure ConnectionSetup where
  immediateSends : List (Nat × String)
  onconnectSet : Bool
  onconnectSends : List (Nat × String)
deriving Repr, DecidableEq

/-- addConnection of src/photowall/app/scripts/receiver.js: sends the
slideshow state through the connection immediately, installs no
onconnect handler (and installs its onmessage handler, modelled by
connectionOnMessage). -/
def addConnectionMain (sl : Slideshow) (connection : Nat) : ConnectionSetup :=
  { immediateSends := [sendMessage connection (JsValue.objVal sl)],
    onconnectSet := false, onconnectSends := [] }

/-- addConnection of the variant receiver script in src/unnamed/part_000:
sends nothing immediately; instead it sets connection.onconnect to a
closure that sends the slideshow state (and installs the same onmessage
handler). -/
def addConnectionVariant (sl : Slideshow) (connection : Nat) : ConnectionSetup :=
  { immediateSends := [], onconnectSet := true,
    onconnectSends := [sendMessage connection (JsValue.objVal sl)] }

/-- preloadNextImage of the src/unnamed/part_000 variant (same body as
receiver.js, declared with const/let). -/
def preloadNextImageV (s : ReceiverState) : Option ReceiverState :=
  let sl := s.slideshow
  let n1 := sl.currentImageIndex + 1
  let nextImageIndex : Int := if n1 ≥ (sl.images.length : Int) then 0 else n1
  if 1 < sl.images.length then
    match jsIndex sl.images nextImageIndex with
    | none => none
    | some nextImage =>
      some { s with events := s.events ++ [DisplayEvent.preloadImage nextImage.url] }
  else
    some s

/-- showNextImage of the src/unnamed/part_000 variant (same body as
receiver.js). -/
def showNextImageV (s : ReceiverState) : Option ReceiverState :=
  let s1 := clearScheduled s
  let idx1 := s1.slideshow.currentImageIndex + 1
  let idx : Int := if idx1 ≥ (s1.slideshow.images.length : Int) then 0 else idx1
  let sl := { s1.slideshow with currentImageIndex := idx }
  if sl.images.length = 0 then
    some { s1 with slideshow := sl, events := s1.events ++ [DisplayEvent.clearDisplay] }
  else
    match jsIndex sl.images idx with
    | none => none
    | some currentImage =>
      let ev := DisplayEvent.showImage currentImage.url sl.animation
      let s2 := { s1 with slideshow := sl, events := s1.events ++ [ev] }
      match preloadNextImageV s2 with
      | none => none
      | some s3 =>
        some { s3 with
               nextImageTimeout := some s3.nextTimerId,
               nextTimerId := s3.nextTimerId + 1,
               liveTimers := s3.liveTimers ++ [s3.nextTimerId] }

/-- addImage of the src/unnamed/part_000 variant (same body as
receiver.js). -/
def addImageV (s : ReceiverState) (url : String) : Option ReceiverState :=
  let s1 := pushImage s url
  (if s1.slideshow.currentImageIndex + 2 = (s1.slideshow.images.length : Int) then
     preloadNextImageV s1
   else some s1).bind
    (fun s2 => if s2.slideshow.images.length = 1 then showNextImageV s2 else some s2)

/-- removeImage of the src/unnamed/part_000 variant (same body as
receiver.js). -/
def removeImageV (s : ReceiverState) (id : Int) : Option (ReceiverState × Bool) :=
  match s.slideshow.images.findIdx? (fun image => (image.id : Int) = id) with
  | none => some (s, false)
  | some imageIndex =>
    let cur := s.slideshow.currentImageIndex
    let cur1 := if (imageIndex : Int) < cur then cur - 1 else cur
    if (imageIndex : Int) = cur1 then
      (showNextImageV (spliceAt s imageIndex (cur1 - 1))).map (fun s2 => (s2, true))
    else
      some (spliceAt s imageIndex cur1, true)

/-- changeDelay of the src/unnamed/part_000 variant (same body as
receiver.js). -/
def changeDelayV (s : ReceiverState) (delay : Int) : Option ReceiverState :=
  showNextImageV (setDelayStepBack s delay)

/-- changeAnimation of the src/unnamed/part_000 variant (same body as
receiver.js). -/
def changeAnimationV (s : ReceiverState) (animation : String) : ReceiverState :=
  { s with slideshow := { s.slideshow with animation := animation } }

/-- The onmessage switch of addConnection in the src/unnamed/part_000
variant (same four cases as receiver.js). -/
def dispatchActionV (s : ReceiverState) (m : JsonMessage) : Option ReceiverState :=
  if m.action = ADD_IMAGE then
    match m.data with
    | MsgData.image url => addImageV s url
    | _ => none
  else if m.action = REMOVE_IMAGE then
    match m.data with
    | MsgData.num n => (removeImageV s n).map Prod.fst
    | _ => none
  else if m.action = CHANGE_DELAY then
    match m.data with
    | MsgData.num n => changeDelayV s n
    | _ => none
  else if m.action = CHANGE_ANIMATION then
    match m.data with
    | MsgData.str a => some (changeAnimationV s a)
    | _ => none
  else
    some s

end PhotowallVariant

namespace Photowall

/-- Index invariant of the slideshow object: the current index is
nonnegative, in range while any image is present, and pinned to 0 while
the list is empty. Handlers may break it transiently but every handler
restores it before returning. -/
def SlideshowInv (sl : Slideshow) : Prop :=
  0 ≤ sl.currentImageIndex ∧
  (0 < sl.images.length → sl.currentImageIndex < (sl.images.length : Int)) ∧
  (sl.images.length = 0 → sl.currentImageIndex = 0)

instance (sl : Slideshow) : Decidable (SlideshowInv sl) := by
  unfold SlideshowInv; infer_instance

/-- Timer invariant of the receiver page: timer ids are positive, and at
most one timeout is pending, namely the one recorded in
nextImageTimeout. -/
def TimerInv (s : ReceiverState) : Prop :=
  0 < s.nextTimerId ∧
  (s.liveTimers = [] ∨ ∃ t, s.liveTimers = [t] ∧ s.nextImageTimeout = some t ∧ 0 < t)

/-- A controller message is well formed when its payload shape matches
its action: an image object for addImage, a number for removeImage and
changeDelay, a string for changeAnimation. Unknown actions carry any
payload. -/
def WellFormedMsg (m : JsonMessage) : Prop :=
  (m.action = ADD_IMAGE → ∃ url, m.data = MsgData.image url) ∧
  (m.action = REMOVE_IMAGE → ∃ n, m.data = MsgData.num n) ∧
  (m.action = CHANGE_DELAY → ∃ n, m.data = MsgData.num n) ∧
  (m.action = CHANGE_ANIMATION → ∃ a, m.data = MsgData.str a)

/-- The five slideshow operations of receiver.js that touch the
slideshow object. -/
inductive SlideshowOp where
  | addOp (url : String) : SlideshowOp
  | removeOp (id : Int) : SlideshowOp
  | delayOp (delay : Int) : SlideshowOp
  | animOp (animation : String) : SlideshowOp
  | showOp : SlideshowOp
deriving Repr, DecidableEq

/-- Run one slideshow operation on the receiver state. -/
def applyOp (s : ReceiverState) : SlideshowOp → Option ReceiverState
  | SlideshowOp.addOp url => addImage s url
  | SlideshowOp.removeOp id => (removeImage s id).map Prod.fst
  | SlideshowOp.delayOp delay => changeDelay s delay
  | SlideshowOp.animOp animation => some (changeAnimation s animation)
  | SlideshowOp.showOp => showNextImage s

/-- One step of the receiver page: either a message arrives on a
connection and runs the onmessage switch, or the pending image-cycling
timeout fires (the runtime removes it from the pending set and invokes
showNextImage). -/
inductive ReceiverStep : ReceiverState → ReceiverState → Prop where
  | message (s s' : ReceiverState) (m : JsonMessage)
      (h : dispatchAction s m = some s') : ReceiverStep s s'
  | timerFires (s s' : ReceiverState) (t : Nat) (hmem : t ∈ s.liveTimers)
      (h : showNextImage { s with liveTimers := s.liveTimers.erase t } = some s') :
      ReceiverStep s s'

/-- States of the receiver page reachable from the initial state by
messages and timer firings. -/
inductive ReceiverReachable : ReceiverState → Prop where
  | init : ReceiverReachable initialReceiverState
  | step (s s' : ReceiverState) (hr : ReceiverReachable s) (hs : ReceiverStep s s') :
      ReceiverReachable s'

/-- A concrete slideshow used to evaluate the theorems: two images, the
first one on display. -/
def demoSlideshow : Slideshow :=
  { images := [{ url := "a", id := 0 }, { url := "b", id := 1 }],
    delay := DEFAULT_SLIDESHOW_DELAY, animation := DEFAULT_SLIDESHOW_ANIMATION,
    currentImageIndex := 0 }

/-- A concrete receiver state used to evaluate the theorems: the demo
slideshow with one pending cycle timer. -/
def demoState : ReceiverState :=
  { slideshow := demoSlideshow, imageSequence := 2, nextImageTimeout := some 1,
    nextTimerId := 2, liveTimers := [1], events := [] }

@[simp]
theorem clearScheduled_slideshow (s : ReceiverState) :
    (clearScheduled s).slideshow = s.slideshow := by
  unfold clearScheduled
  split
  · split <;> rfl
  · rfl

@[simp]
theorem clearScheduled_imageSequence (s : ReceiverState) :
    (clearScheduled s).imageSequence = s.imageSequence := by
  unfold clearScheduled
  split
  · split <;> rfl
  · rfl

@[simp]
theorem clearScheduled_events (s : ReceiverState) :
    (clearScheduled s).events = s.events := by
  unfold clearScheduled
  split
  · split <;> rfl
  · rfl

@[simp]
theorem clearScheduled_nextImageTimeout (s : ReceiverState) :
    (clearScheduled s).nextImageTimeout = s.nextImageTimeout := by
  unfold clearScheduled
  split
  · split <;> rfl
  · rfl

@[simp]
theorem clearScheduled_nextTimerId (s : ReceiverState) :
    (clearScheduled s).nextTimerId = s.nextTimerId := by
  unfold clearScheduled
  split
  · split <;> rfl
  · rfl

theorem jsIndex_of_nonneg (l : List SlideImage) (i : Int) (h : 0 ≤ i) :
    jsIndex l i = l.get? i.toNat := by
  unfold jsIndex
  simp [h]

theorem jsIndex_eq_some (l : List SlideImage) (i : Int) (h0 : 0 ≤ i)
    (h1 : i < (l.length : Int)) :
    ∃ a, jsIndex l i = some a ∧ l.get? i.toNat = some a := by
  have hlt : i.toNat < l.length := by omega
  rcases List.get?_eq_get hlt with h
  exact ⟨l.get ⟨i.toNat, hlt⟩, by rw [jsIndex_of_nonneg l i h0, h], h⟩

theorem preloadNextImage_spec (s : ReceiverState)
    (h1 : 0 ≤ s.slideshow.currentImageIndex)
    (h2 : s.slideshow.currentImageIndex < (s.slideshow.images.length : Int)) :
    ∃ s', preloadNextImage s = some s' ∧ s'.slideshow = s.slideshow ∧
      s'.imageSequence = s.imageSequence ∧ s'.nextImageTimeout = s.nextImageTimeout ∧
      s'.nextTimerId = s.nextTimerId ∧ s'.liveTimers = s.liveTimers ∧
      ((s.slideshow.images.length ≤ 1 ∧ s'.events = s.events) ∨
       (1 < s.slideshow.images.length ∧ ∃ nextImage,
         jsIndex s.slideshow.images
           (if s.slideshow.currentImageIndex + 1 ≥ (s.slideshow.images.length : Int) then 0
            else s.slideshow.currentImageIndex + 1) = some nextImage ∧
         s'.events = s.events ++ [DisplayEvent.preloadImage nextImage.url])) := by
  unfold preloadNextImage
  by_cases hlen : 1 < s.slideshow.images.length
  · have hidx0 : (0 : Int) ≤
        (if s.slideshow.currentImageIndex + 1 ≥ (s.slideshow.images.length : Int) then 0
         else s.slideshow.currentImageIndex + 1) := by
      split <;> omega
    have hidx1 :
        (if s.slideshow.currentImageIndex + 1 ≥ (s.slideshow.images.length : Int) then 0
         else s.slideshow.currentImageIndex + 1) < (s.slideshow.images.length : Int) := by
      split <;> omega
    rcases jsIndex_eq_some s.slideshow.images _ hidx0 hidx1 with ⟨a, ha, _⟩
    refine ⟨{ s with events := s.events ++ [DisplayEvent.preloadImage a.url] },
      ?_, rfl, rfl, rfl, rfl, rfl, Or.inr ⟨hlen, a, ha, rfl⟩⟩
    rw [if_pos hlen, ha]
  · refine ⟨s, ?_, rfl, rfl, rfl, rfl, rfl, Or.inl ⟨by omega, rfl⟩⟩
    rw [if_neg hlen]

theorem showNextImage_spec (s : ReceiverState)
    (h1 : -1 ≤ s.slideshow.currentImageIndex)
    (h2 : 0 < s.slideshow.images.length →
      s.slideshow.currentImageIndex < (s.slideshow.images.length : Int)) :
    ∃ s', showNextImage s = some s' ∧
      s'.slideshow.images = s.slideshow.images ∧
      s'.slideshow.delay = s.slideshow.delay ∧
      s'.slideshow.animation = s.slideshow.animation ∧
      s'.imageSequence = s.imageSequence ∧
      s'.slideshow.currentImageIndex =
        (if s.slideshow.currentImageIndex + 1 ≥ (s.slideshow.images.length : Int) then 0
         else s.slideshow.currentImageIndex + 1) ∧
      s'.liveTimers =
        (if s.slideshow.images.length = 0 then (clearScheduled s).liveTimers
         else (clearScheduled s).liveTimers ++ [s.nextTimerId]) ∧
      s'.nextImageTimeout =
        (if s.slideshow.images.length = 0 then s.nextImageTimeout else some s.nextTimerId) ∧
      s'.nextTimerId =
        (if s.slideshow.images.length = 0 then s.nextTimerId else s.nextTimerId + 1) ∧
      ((s.slideshow.images.length = 0 ∧
          s'.events = s.events ++ [DisplayEvent.clearDisplay]) ∨
       (0 < s.slideshow.images.length ∧ ∃ currentImage,
          jsIndex s.slideshow.images s'.slideshow.currentImageIndex = some currentImage ∧
          ((s.slideshow.images.length = 1 ∧
             s'.events = s.events ++
               [DisplayEvent.showImage currentImage.url s.slideshow.animation]) ∨
           (1 < s.slideshow.images.length ∧ ∃ nextImage,
             jsIndex s.slideshow.images
               (if s'.slideshow.currentImageIndex + 1 ≥ (s.slideshow.images.length : Int) then 0
                else s'.slideshow.currentImageIndex + 1) = some nextImage ∧
             s'.events = s.events ++
               [DisplayEvent.showImage currentImage.url s.slideshow.animation,
                DisplayEvent.preloadImage nextImage.url])))) := by
  simp only [showNextImage, clearScheduled_slideshow, clearScheduled_events,
    clearScheduled_imageSequence, clearScheduled_nextImageTimeout, clearScheduled_nextTimerId]
  by_cases hlen : s.slideshow.images.length = 0
  · rw [if_pos hlen]
    refine ⟨_, rfl, rfl, rfl, rfl, rfl, rfl, ?_, ?_, ?_, Or.inl ⟨hlen, rfl⟩⟩
    · rw [if_pos hlen]
    · rw [if_pos hlen]
    · rw [if_pos hlen]
  · have hpos : 0 < s.slideshow.images.length := Nat.pos_of_ne_zero hlen
    have hcur := h2 hpos
    have hidx0 : (0 : Int) ≤
        (if s.slideshow.currentImageIndex + 1 ≥ (s.slideshow.images.length : Int) then 0
         else s.slideshow.currentImageIndex + 1) := by split <;> omega
    have hidx1 :
        (if s.slideshow.currentImageIndex + 1 ≥ (s.slideshow.images.length : Int) then 0
         else s.slideshow.currentImageIndex + 1) < (s.slideshow.images.length : Int) := by
      split <;> omega
    rw [if_neg hlen]
    rcases jsIndex_eq_some s.slideshow.images _ hidx0 hidx1 with ⟨a, ha, _⟩
    have hpre := preloadNextImage_spec
      { s with
        slideshow := { s.slideshow with currentImageIndex :=
          (if s.slideshow.currentImageIndex + 1 ≥ (s.slideshow.images.length : Int) then 0
           else s.slideshow.currentImageIndex + 1) },
        liveTimers := (clearScheduled s).liveTimers,
        events := s.events ++
          [DisplayEvent.showImage a.url s.slideshow.animation] }
      (by simpa using hidx0) (by simpa using hidx1)
    rcases hpre with ⟨s3, heq, hsl, hseq, hnit, hnti, hlt, hev⟩
    simp only [ha, heq]
    refine ⟨_, rfl, ?_, ?_, ?_, ?_, ?_, ?_, ?_, ?_, ?_⟩
    · rw [hsl]
    · rw [hsl]
    · rw [hsl]
    · rw [hseq]
    · rw [hsl]
    · rw [if_neg hlen, hlt, hnti]
    · rw [if_neg hlen, hnti]
    · rw [if_neg hlen, hnti]
    · refine Or.inr ⟨hpos, a, ?_, ?_⟩
      · rw [hsl]; exact ha
      · simp only [hsl] at hev ⊢
        rcases hev with ⟨hle, hevents⟩ | ⟨hgt, b, hb, hevents⟩
        · exact Or.inl ⟨by omega, by rw [hevents]⟩
        · refine Or.inr ⟨hgt, b, ?_, by rw [hevents]; simp⟩
          simpa using hb

theorem showNextImage_slideshowInv (s s' : ReceiverState)
    (h1 : -1 ≤ s.slideshow.currentImageIndex)
    (h2 : 0 < s.slideshow.images.length →
      s.slideshow.currentImageIndex < (s.slideshow.images.length : Int))
    (h : showNextImage s = some s') : SlideshowInv s'.slideshow := by
  rcases showNextImage_spec s h1 h2 with ⟨t, ht, him, _, _, _, hcur, _⟩
  rw [h] at ht
  cases ht
  refine ⟨?_, ?_, ?_⟩ <;> rw [him] at * <;> rw [hcur] <;> intros <;> split <;> omega

theorem clearScheduled_liveTimers_nil (s : ReceiverState) (h : TimerInv s) :
    (clearScheduled s).liveTimers = [] := by
  rcases h with ⟨hpos, hnil | ⟨t, hlt, hnit, ht⟩⟩
  · unfold clearScheduled
    split
    · split
      · simp [hnil]
      · exact hnil
    · exact hnil
  · unfold clearScheduled
    rw [hnit]
    simp only
    rw [if_pos (by omega : t ≠ 0)]
    simp [hlt]

theorem showNextImage_timerInv (s s' : ReceiverState) (hT : TimerInv s)
    (h1 : -1 ≤ s.slideshow.currentImageIndex)
    (h2 : 0 < s.slideshow.images.length →
      s.slideshow.currentImageIndex < (s.slideshow.images.length : Int))
    (h : showNextImage s = some s') : TimerInv s' := by
  rcases showNextImage_spec s h1 h2 with ⟨t, ht, _, _, _, _, _, hlt, hnit, hnti, _⟩
  rw [h] at ht
  cases ht
  have hnil := clearScheduled_liveTimers_nil s hT
  rcases hT with ⟨hpos, _⟩
  by_cases hlen : s.slideshow.images.length = 0
  · rw [if_pos hlen] at hlt hnti
    exact ⟨by omega, Or.inl (by rw [hlt, hnil])⟩
  · rw [if_neg hlen] at hlt hnit hnti
    refine ⟨by omega, Or.inr ⟨s.nextTimerId, ?_, hnit, hpos⟩⟩
    rw [hlt, hnil]
    rfl

theorem timerInv_congr (s s' : ReceiverState) (h1 : s'.liveTimers = s.liveTimers)
    (h2 : s'.nextImageTimeout = s.nextImageTimeout) (h3 : s'.nextTimerId = s.nextTimerId)
    (hT : TimerInv s) : TimerInv s' := by
  unfold TimerInv at *
  rw [h1, h2, h3]
  exact hT

@[simp]
theorem pushImage_images (s : ReceiverState) (url : String) :
    (pushImage s url).slideshow.images =
      s.slideshow.images ++ [{ url := url, id := s.imageSequence }] := rfl

@[simp]
theorem pushImage_currentImageIndex (s : ReceiverState) (url : String) :
    (pushImage s url).slideshow.currentImageIndex = s.slideshow.currentImageIndex := rfl

@[simp]
theorem pushImage_delay (s : ReceiverState) (url : String) :
    (pushImage s url).slideshow.delay = s.slideshow.delay := rfl

@[simp]
theorem pushImage_animation (s : ReceiverState) (url : String) :
    (pushImage s url).slideshow.animation = s.slideshow.animation := rfl

@[simp]
theorem pushImage_imageSequence (s : ReceiverState) (url : String) :
    (pushImage s url).imageSequence = s.imageSequence + 1 := rfl

@[simp]
theorem pushImage_events (s : ReceiverState) (url : String) :
    (pushImage s url).events = s.events := rfl

@[simp]
theorem pushImage_liveTimers (s : ReceiverState) (url : String) :
    (pushImage s url).liveTimers = s.liveTimers := rfl

@[simp]
theorem pushImage_nextImageTimeout (s : ReceiverState) (url : String) :
    (pushImage s url).nextImageTimeout = s.nextImageTimeout := rfl

@[simp]
theorem pushImage_nextTimerId (s : ReceiverState) (url : String) :
    (pushImage s url).nextTimerId = s.nextTimerId := rfl

theorem addImage_spec (s : ReceiverState) (url : String)
    (hInv : SlideshowInv s.slideshow) :
    ∃ s', addImage s url = some s' ∧
      s'.slideshow.images = s.slideshow.images ++ [⟨url, s.imageSequence⟩] ∧
      s'.imageSequence = s.imageSequence + 1 ∧
      s'.slideshow.delay = s.slideshow.delay ∧
      s'.slideshow.animation = s.slideshow.animation ∧
      SlideshowInv s'.slideshow ∧
      (TimerInv s → TimerInv s') ∧
      (s.slideshow.currentImageIndex + 1 = (s.slideshow.images.length : Int) →
        s'.events = s.events ++ [DisplayEvent.preloadImage url]) ∧
      (s.slideshow.images.length = 0 →
        s'.events = s.events ++
          [DisplayEvent.showImage url s.slideshow.animation]) ∧
      (s.slideshow.currentImageIndex + 1 ≠ (s.slideshow.images.length : Int) →
        s.slideshow.images.length ≠ 0 → s'.events = s.events) := by
  rcases hInv with ⟨hc0, hcLt, hcEmpty⟩
  have hclen : ((pushImage s url).slideshow.images.length : Int) =
      (s.slideshow.images.length : Int) + 1 := by
    simp
  by_cases hlen : s.slideshow.images.length = 0
  · -- first image: no preload, immediate showNextImage
    have himgs : s.slideshow.images = [] := List.length_eq_zero.mp hlen
    have hcur : s.slideshow.currentImageIndex = 0 := hcEmpty hlen
    have hpre1 : -1 ≤ (pushImage s url).slideshow.currentImageIndex := by
      simp only [pushImage_currentImageIndex]; omega
    have hpre2 : 0 < (pushImage s url).slideshow.images.length →
        (pushImage s url).slideshow.currentImageIndex <
          ((pushImage s url).slideshow.images.length : Int) := by
      intro _
      simp only [pushImage_currentImageIndex, pushImage_images, hcur, himgs]
      simp
    rcases showNextImage_spec (pushImage s url) hpre1 hpre2 with
      ⟨t, ht, him, hdel, hanim, hseq, hcur', hltim, hnitim, hntid, hev⟩
    have hone : (pushImage s url).slideshow.images.length = 1 := by
      simp [himgs]
    refine ⟨t, ?_, ?_, ?_, by rw [hdel, pushImage_delay], by rw [hanim, pushImage_animation],
      ?_, ?_, ?_, ?_, ?_⟩
    · have hne : ¬((pushImage s url).slideshow.currentImageIndex + 2 =
          ((pushImage s url).slideshow.images.length : Int)) := by
        rw [pushImage_currentImageIndex, hclen, hcur]
        omega
      simp only [addImage, if_neg hne, Option.some_bind]
      rw [if_pos hone]
      exact ht
    · rw [him, pushImage_images]
    · rw [hseq, pushImage_imageSequence]
    · exact showNextImage_slideshowInv _ t hpre1 hpre2 ht
    · intro hT
      exact showNextImage_timerInv (pushImage s url) t hT hpre1 hpre2 ht
    · intro habs
      rw [hcur, hlen] at habs
      norm_num at habs
    · intro _
      rcases hev with ⟨habs, _⟩ | ⟨_, currentImage, hci, hev2⟩
      · rw [hone] at habs; omega
      · have hcix : t.slideshow.currentImageIndex = 0 := by
          rw [hcur', pushImage_currentImageIndex, hcur, hclen, hlen]
          norm_num
        have hcurImg : currentImage = ({ url := url, id := s.imageSequence } : SlideImage) := by
          rw [hcix, pushImage_images, himgs, List.nil_append] at hci
          rw [jsIndex_of_nonneg _ _ le_rfl] at hci
          simp at hci
          exact hci.symm
        rcases hev2 with ⟨_, hev3⟩ | ⟨habs, _⟩
        · rw [hev3, hcurImg, pushImage_events, pushImage_animation]
        · rw [hone] at habs; omega
    · intro _ habs
      exact absurd hlen habs
  · -- the slideshow already held an image: no immediate cycling
    have hpos : 0 < s.slideshow.images.length := Nat.pos_of_ne_zero hlen
    have hcur := hcLt hpos
    have hmany : ¬((pushImage s url).slideshow.images.length = 1) := by
      rw [pushImage_images, List.length_append, List.length_singleton]
      omega
    by_cases hc : s.slideshow.currentImageIndex + 1 = (s.slideshow.images.length : Int)
    · -- the new image is the next one to be shown: preload it
      have hpre := preloadNextImage_spec (pushImage s url)
        (by rw [pushImage_currentImageIndex]; omega)
        (by rw [pushImage_currentImageIndex, hclen]; omega)
      rcases hpre with ⟨s3, heq, hsl, hseq, hnit, hnti, hlt, hev⟩
      have hslimg : s3.slideshow.images =
          s.slideshow.images ++ [{ url := url, id := s.imageSequence }] := by
        rw [hsl, pushImage_images]
      refine ⟨s3, ?_, hslimg, ?_, ?_, ?_, ?_, ?_, ?_, ?_, ?_⟩
      · have hyes : (pushImage s url).slideshow.currentImageIndex + 2 =
            ((pushImage s url).slideshow.images.length : Int) := by
          rw [pushImage_currentImageIndex, hclen]
          omega
        simp only [addImage, if_pos hyes, heq, Option.some_bind]
        rw [if_neg (by rw [hsl]; exact hmany)]
      · rw [hseq, pushImage_imageSequence]
      · rw [hsl, pushImage_delay]
      · rw [hsl, pushImage_animation]
      · refine ⟨?_, ?_, ?_⟩ <;> rw [hsl] <;>
          simp only [pushImage_currentImageIndex, pushImage_images, List.length_append,
            List.length_singleton] <;>
          intros <;> push_cast <;> omega
      · intro hT
        refine timerInv_congr s s3 ?_ ?_ ?_ hT
        · rw [hlt, pushImage_liveTimers]
        · rw [hnit, pushImage_nextImageTimeout]
        · rw [hnti, pushImage_nextTimerId]
      · intro _
        rcases hev with ⟨habs, _⟩ | ⟨_, nextImage, hni, hev2⟩
        · rw [pushImage_images, List.length_append, List.length_singleton] at habs; omega
        · have hnx : nextImage = ({ url := url, id := s.imageSequence } : SlideImage) := by
            rw [if_neg (by rw [pushImage_currentImageIndex, hclen]; omega)] at hni
            rw [pushImage_currentImageIndex, pushImage_images] at hni
            rw [jsIndex_of_nonneg _ _ (by omega)] at hni
            have htn : (s.slideshow.currentImageIndex + 1).toNat =
                s.slideshow.images.length := by omega
            rw [htn, List.get?_eq_getElem?, List.getElem?_concat_length] at hni
            exact (Option.some.inj hni).symm
          rw [hev2, hnx, pushImage_events]
      · intro habs
        exact absurd habs hlen
      · intro habs _
        exact absurd hc habs
    · -- neither first image nor next image: state pushed, nothing else
      have hne : ¬((pushImage s url).slideshow.currentImageIndex + 2 =
          ((pushImage s url).slideshow.images.length : Int)) := by
        rw [pushImage_currentImageIndex, hclen]
        omega
      refine ⟨pushImage s url, ?_, by rw [pushImage_images], by rw [pushImage_imageSequence],
        by rw [pushImage_delay], by rw [pushImage_animation], ?_, ?_, ?_, ?_, ?_⟩
      · simp only [addImage, if_neg hne, Option.some_bind]
        rw [if_neg hmany]
      · refine ⟨?_, ?_, ?_⟩ <;>
          simp only [pushImage_currentImageIndex, pushImage_images, List.length_append,
            List.length_singleton] <;>
          intros <;> push_cast <;> omega
      · intro hT
        exact timerInv_congr s _ (by rw [pushImage_liveTimers])
          (by rw [pushImage_nextImageTimeout]) (by rw [pushImage_nextTimerId]) hT
      · intro habs
        exact absurd habs hc
      · intro habs
        exact absurd habs hlen
      · intro _ _
        rw [pushImage_events]

@[simp]
theorem spliceAt_images (s : ReceiverState) (i : Nat) (c : Int) :
    (spliceAt s i c).slideshow.images = s.slideshow.images.eraseIdx i := rfl

@[simp]
theorem spliceAt_currentImageIndex (s : ReceiverState) (i : Nat) (c : Int) :
    (spliceAt s i c).slideshow.currentImageIndex = c := rfl

@[simp]
theorem spliceAt_delay (s : ReceiverState) (i : Nat) (c : Int) :
    (spliceAt s i c).slideshow.delay = s.slideshow.delay := rfl

@[simp]
theorem spliceAt_animation (s : ReceiverState) (i : Nat) (c : Int) :
    (spliceAt s i c).slideshow.animation = s.slideshow.animation := rfl

@[simp]
theorem spliceAt_imageSequence (s : ReceiverState) (i : Nat) (c : Int) :
    (spliceAt s i c).imageSequence = s.imageSequence := rfl

@[simp]
theorem spliceAt_events (s : ReceiverState) (i : Nat) (c : Int) :
    (spliceAt s i c).events = s.events := rfl

@[simp]
theorem spliceAt_liveTimers (s : ReceiverState) (i : Nat) (c : Int) :
    (spliceAt s i c).liveTimers = s.liveTimers := rfl

@[simp]
theorem spliceAt_nextImageTimeout (s : ReceiverState) (i : Nat) (c : Int) :
    (spliceAt s i c).nextImageTimeout = s.nextImageTimeout := rfl

@[simp]
theorem spliceAt_nextTimerId (s : ReceiverState) (i : Nat) (c : Int) :
    (spliceAt s i c).nextTimerId = s.nextTimerId := rfl

theorem removeImage_spec (s : ReceiverState) (id : Int)
    (hInv : SlideshowInv s.slideshow) :
    (s.slideshow.images.findIdx? (fun image => (image.id : Int) = id) = none →
      removeImage s id = some (s, false)) ∧
    (∀ imageIndex,
      s.slideshow.images.findIdx? (fun image => (image.id : Int) = id) = some imageIndex →
      ∃ s', removeImage s id = some (s', true) ∧
        s'.slideshow.images = s.slideshow.images.eraseIdx imageIndex ∧
        s'.slideshow.delay = s.slideshow.delay ∧
        s'.slideshow.animation = s.slideshow.animation ∧
        s'.imageSequence = s.imageSequence ∧
        s'.slideshow.currentImageIndex =
          (if (imageIndex : Int) < s.slideshow.currentImageIndex then
             s.slideshow.currentImageIndex - 1
           else if (imageIndex : Int) = s.slideshow.currentImageIndex then
             (if s.slideshow.currentImageIndex ≥ (s.slideshow.images.length : Int) - 1 then 0
              else s.slideshow.currentImageIndex)
           else s.slideshow.currentImageIndex) ∧
        SlideshowInv s'.slideshow ∧
        (TimerInv s → TimerInv s')) := by
  rcases hInv with ⟨hc0, hcLt, hcEmpty⟩
  constructor
  · intro hfind
    simp only [removeImage, hfind]
  · intro imageIndex hfind
    have hidx : imageIndex < s.slideshow.images.length := by
      rcases List.findIdx?_eq_some_iff_getElem.mp hfind with ⟨h, _, _⟩
      exact h
    have hpos : 0 < s.slideshow.images.length := by omega
    have hcur := hcLt hpos
    have hlen' : (s.slideshow.images.eraseIdx imageIndex).length =
        s.slideshow.images.length - 1 := by
      rw [List.length_eraseIdx]
      rw [if_pos hidx]
    by_cases hlt : (imageIndex : Int) < s.slideshow.currentImageIndex
    · by_cases heq1 : (imageIndex : Int) = s.slideshow.currentImageIndex - 1
      · -- removed just before the current image: re-show the current image
        have hshow := showNextImage_spec
          (spliceAt s imageIndex (s.slideshow.currentImageIndex - 1 - 1))
          (by rw [spliceAt_currentImageIndex]; omega)
          (by rw [spliceAt_currentImageIndex, spliceAt_images, hlen']; intro; push_cast; omega)
        rcases hshow with ⟨t, ht, him, hdel, hanim, hseq, hcur', hltim, hnitim, hntid, _⟩
        refine ⟨t, ?_, ?_, ?_, ?_, ?_, ?_, ?_, ?_⟩
        · simp only [removeImage, hfind]
          rw [if_pos hlt, if_pos heq1, ht, Option.map_some']
        · rw [him, spliceAt_images]
        · rw [hdel, spliceAt_delay]
        · rw [hanim, spliceAt_animation]
        · rw [hseq, spliceAt_imageSequence]
        · rw [hcur', spliceAt_currentImageIndex, spliceAt_images, hlen']
          rw [if_pos hlt]
          have hc2 : ¬(s.slideshow.currentImageIndex - 1 - 1 + 1 ≥
              ((s.slideshow.images.length - 1 : Nat) : Int)) := by
            push_cast
            omega
          rw [if_neg hc2]
          omega
        · exact showNextImage_slideshowInv _ t
            (by rw [spliceAt_currentImageIndex]; omega)
            (by rw [spliceAt_currentImageIndex, spliceAt_images, hlen']; intro; push_cast; omega)
            ht
        · intro hT
          exact showNextImage_timerInv
            (spliceAt s imageIndex (s.slideshow.currentImageIndex - 1 - 1)) t hT
            (by rw [spliceAt_currentImageIndex]; omega)
            (by rw [spliceAt_currentImageIndex, spliceAt_images, hlen']; intro; push_cast; omega)
            ht
      · -- removed strictly before the previous position: plain decrement
        refine ⟨spliceAt s imageIndex (s.slideshow.currentImageIndex - 1), ?_,
          by rw [spliceAt_images], by rw [spliceAt_delay], by rw [spliceAt_animation],
          by rw [spliceAt_imageSequence], ?_, ?_, ?_⟩
        · simp only [removeImage, hfind]
          rw [if_pos hlt, if_neg (by omega)]
        · rw [spliceAt_currentImageIndex, if_pos hlt]
        · refine ⟨?_, ?_, ?_⟩ <;>
            simp only [spliceAt_currentImageIndex, spliceAt_images, hlen'] <;>
            intros <;> push_cast <;> omega
        · intro hT
          exact timerInv_congr s _ (by rw [spliceAt_liveTimers])
            (by rw [spliceAt_nextImageTimeout]) (by rw [spliceAt_nextTimerId]) hT
    · by_cases heq2 : (imageIndex : Int) = s.slideshow.currentImageIndex
      · -- removed the current image itself: advance the slideshow
        have hshow := showNextImage_spec
          (spliceAt s imageIndex (s.slideshow.currentImageIndex - 1))
          (by rw [spliceAt_currentImageIndex]; omega)
          (by rw [spliceAt_currentImageIndex, spliceAt_images, hlen']; intro; push_cast; omega)
        rcases hshow with ⟨t, ht, him, hdel, hanim, hseq, hcur', hltim, hnitim, hntid, _⟩
        refine ⟨t, ?_, ?_, ?_, ?_, ?_, ?_, ?_, ?_⟩
        · simp only [removeImage, hfind]
          rw [if_neg hlt, if_pos heq2, ht, Option.map_some']
        · rw [him, spliceAt_images]
        · rw [hdel, spliceAt_delay]
        · rw [hanim, spliceAt_animation]
        · rw [hseq, spliceAt_imageSequence]
        · rw [hcur', spliceAt_currentImageIndex, spliceAt_images, hlen']
          rw [if_neg hlt, if_pos heq2]
          have hcast : ((s.slideshow.images.length - 1 : Nat) : Int) =
              (s.slideshow.images.length : Int) - 1 := by push_cast; omega
          rw [hcast]
          split <;> split <;> omega
        · exact showNextImage_slideshowInv _ t
            (by rw [spliceAt_currentImageIndex]; omega)
            (by rw [spliceAt_currentImageIndex, spliceAt_images, hlen']; intro; push_cast; omega)
            ht
        · intro hT
          exact showNextImage_timerInv
            (spliceAt s imageIndex (s.slideshow.currentImageIndex - 1)) t hT
            (by rw [spliceAt_currentImageIndex]; omega)
            (by rw [spliceAt_currentImageIndex, spliceAt_images, hlen']; intro; push_cast; omega)
            ht
      · -- removed after the current image: index untouched
        refine ⟨spliceAt s imageIndex s.slideshow.currentImageIndex, ?_,
          by rw [spliceAt_images], by rw [spliceAt_delay], by rw [spliceAt_animation],
          by rw [spliceAt_imageSequence], ?_, ?_, ?_⟩
        · simp only [removeImage, hfind]
          rw [if_neg hlt, if_neg (by omega)]
        · rw [spliceAt_currentImageIndex, if_neg hlt, if_neg heq2]
        · refine ⟨?_, ?_, ?_⟩ <;>
            simp only [spliceAt_currentImageIndex, spliceAt_images, hlen'] <;>
            intros <;> push_cast <;> omega
        · intro hT
          exact timerInv_congr s _ (by rw [spliceAt_liveTimers])
            (by rw [spliceAt_nextImageTimeout]) (by rw [spliceAt_nextTimerId]) hT

@[simp]
theorem setDelayStepBack_images (s : ReceiverState) (delay : Int) :
    (setDelayStepBack s delay).slideshow.images = s.slideshow.images := rfl

@[simp]
theorem setDelayStepBack_currentImageIndex (s : ReceiverState) (delay : Int) :
    (setDelayStepBack s delay).slideshow.currentImageIndex =
      s.slideshow.currentImageIndex - 1 := rfl

@[simp]
theorem setDelayStepBack_delay (s : ReceiverState) (delay : Int) :
    (setDelayStepBack s delay).slideshow.delay = delay := rfl

@[simp]
theorem setDelayStepBack_animation (s : ReceiverState) (delay : Int) :
    (setDelayStepBack s delay).slideshow.animation = s.slideshow.animation := rfl

@[simp]
theorem setDelayStepBack_imageSequence (s : ReceiverState) (delay : Int) :
    (setDelayStepBack s delay).imageSequence = s.imageSequence := rfl

theorem changeDelay_spec (s : ReceiverState) (delay : Int)
    (hInv : SlideshowInv s.slideshow) :
    ∃ s', changeDelay s delay = some s' ∧
      s'.slideshow.images = s.slideshow.images ∧
      s'.slideshow.delay = delay ∧
      s'.slideshow.animation = s.slideshow.animation ∧
      s'.imageSequence = s.imageSequence ∧
      s'.slideshow.currentImageIndex = s.slideshow.currentImageIndex ∧
      SlideshowInv s'.slideshow ∧
      (TimerInv s → TimerInv s') := by
  rcases hInv with ⟨hc0, hcLt, hcEmpty⟩
  have hpre1 : -1 ≤ (setDelayStepBack s delay).slideshow.currentImageIndex := by
    rw [setDelayStepBack_currentImageIndex]; omega
  have hpre2 : 0 < (setDelayStepBack s delay).slideshow.images.length →
      (setDelayStepBack s delay).slideshow.currentImageIndex <
        ((setDelayStepBack s delay).slideshow.images.length : Int) := by
    rw [setDelayStepBack_currentImageIndex, setDelayStepBack_images]
    intro h
    exact lt_trans (by omega) (hcLt h)
  rcases showNextImage_spec (setDelayStepBack s delay) hpre1 hpre2 with
    ⟨t, ht, him, hdel, hanim, hseq, hcur', _, _, _, _⟩
  refine ⟨t, ?_, by rw [him, setDelayStepBack_images], by rw [hdel, setDelayStepBack_delay],
    by rw [hanim, setDelayStepBack_animation], by rw [hseq, setDelayStepBack_imageSequence],
    ?_, ?_, ?_⟩
  · simp only [changeDelay]
    exact ht
  · rw [hcur', setDelayStepBack_currentImageIndex, setDelayStepBack_images]
    by_cases h0 : s.slideshow.images.length = 0
    · have := hcEmpty h0
      rw [if_pos (by omega)]
      omega
    · have := hcLt (by omega)
      rw [if_neg (by omega)]
      omega
  · exact showNextImage_slideshowInv _ t hpre1 hpre2 ht
  · intro hT
    exact showNextImage_timerInv (setDelayStepBack s delay) t hT hpre1 hpre2 ht

theorem changeAnimation_spec (s : ReceiverState) (animation : String) :
    (changeAnimation s animation).slideshow.images = s.slideshow.images ∧
    (changeAnimation s animation).slideshow.delay = s.slideshow.delay ∧
    (changeAnimation s animation).slideshow.animation = animation ∧
    (changeAnimation s animation).slideshow.currentImageIndex =
      s.slideshow.currentImageIndex ∧
    (changeAnimation s animation).imageSequence = s.imageSequence ∧
    (changeAnimation s animation).events = s.events ∧
    (changeAnimation s animation).liveTimers = s.liveTimers ∧
    (changeAnimation s animation).nextImageTimeout = s.nextImageTimeout ∧
    (changeAnimation s animation).nextTimerId = s.nextTimerId :=
  ⟨rfl, rfl, rfl, rfl, rfl, rfl, rfl, rfl, rfl⟩

theorem dispatchAction_success (s : ReceiverState) (m : JsonMessage)
    (hwf : WellFormedMsg m) (hInv : SlideshowInv s.slideshow) :
    ∃ s', dispatchAction s m = some s' ∧ SlideshowInv s'.slideshow ∧
      (TimerInv s → TimerInv s') := by
  rcases hwf with ⟨hadd, hrem, hdel, hanim⟩
  by_cases h1 : m.action = ADD_IMAGE
  · rcases hadd h1 with ⟨url, hdata⟩
    rcases addImage_spec s url hInv with ⟨t, heq, _, _, _, _, hI, hT, _⟩
    exact ⟨t, by simp only [dispatchAction, if_pos h1, hdata]; exact heq, hI, hT⟩
  · by_cases h2 : m.action = REMOVE_IMAGE
    · rcases hrem h2 with ⟨n, hdata⟩
      rcases removeImage_spec s n hInv with ⟨hnone, hsome⟩
      rcases hfind : s.slideshow.images.findIdx? (fun image => (image.id : Int) = n) with _ | i
      · refine ⟨s, ?_, hInv, fun hT => hT⟩
        simp only [dispatchAction, if_neg h1, if_pos h2, hdata, hnone hfind, Option.map_some']
      · rcases hsome i hfind with ⟨t, heq, _, _, _, _, _, hI, hT⟩
        refine ⟨t, ?_, hI, hT⟩
        simp only [dispatchAction, if_neg h1, if_pos h2, hdata, heq, Option.map_some']
    · by_cases h3 : m.action = CHANGE_DELAY
      · rcases hdel h3 with ⟨n, hdata⟩
        rcases changeDelay_spec s n hInv with ⟨t, heq, _, _, _, _, _, hI, hT⟩
        refine ⟨t, ?_, hI, hT⟩
        simp only [dispatchAction, if_neg h1, if_neg h2, if_pos h3, hdata]
        exact heq
      · by_cases h4 : m.action = CHANGE_ANIMATION
        · rcases hanim h4 with ⟨a, hdata⟩
          refine ⟨changeAnimation s a, ?_, ?_, ?_⟩
          · simp only [dispatchAction, if_neg h1, if_neg h2, if_neg h3, if_pos h4, hdata]
          · exact hInv
          · intro hT
            exact timerInv_congr s _ rfl rfl rfl hT
        · refine ⟨s, ?_, hInv, fun hT => hT⟩
          simp only [dispatchAction, if_neg h1, if_neg h2, if_neg h3, if_neg h4]

theorem dispatchAction_preserves (s s' : ReceiverState) (m : JsonMessage)
    (h : dispatchAction s m = some s') (hInv : SlideshowInv s.slideshow)
    (hT : TimerInv s) : SlideshowInv s'.slideshow ∧ TimerInv s' := by
  by_cases h1 : m.action = ADD_IMAGE
  · rcases hd : m.data with url | n | v
    · rw [dispatchAction, if_pos h1] at h
      simp only [hd] at h
      rcases addImage_spec s url hInv with ⟨t, heq, _, _, _, _, hI, hTp, _⟩
      rw [heq] at h
      cases h
      exact ⟨hI, hTp hT⟩
    · rw [dispatchAction, if_pos h1] at h
      simp only [hd, reduceCtorEq] at h
    · rw [dispatchAction, if_pos h1] at h
      simp only [hd, reduceCtorEq] at h
  · by_cases h2 : m.action = REMOVE_IMAGE
    · rcases hd : m.data with url | n | v
      · rw [dispatchAction, if_neg h1, if_pos h2] at h
        simp only [hd, reduceCtorEq] at h
      · rw [dispatchAction, if_neg h1, if_pos h2] at h
        simp only [hd] at h
        rcases removeImage_spec s n hInv with ⟨hnone, hsome⟩
        rcases hfind : s.slideshow.images.findIdx? (fun image => (image.id : Int) = n) with
          _ | i
        · rw [hnone hfind, Option.map_some'] at h
          cases h
          exact ⟨hInv, hT⟩
        · rcases hsome i hfind with ⟨t, heq, _, _, _, _, _, hI, hTp⟩
          rw [heq, Option.map_some'] at h
          cases h
          exact ⟨hI, hTp hT⟩
      · rw [dispatchAction, if_neg h1, if_pos h2] at h
        simp only [hd, reduceCtorEq] at h
    · by_cases h3 : m.action = CHANGE_DELAY
      · rcases hd : m.data with url | n | v
        · rw [dispatchAction, if_neg h1, if_neg h2, if_pos h3] at h
          simp only [hd, reduceCtorEq] at h
        · rw [dispatchAction, if_neg h1, if_neg h2, if_pos h3] at h
          simp only [hd] at h
          rcases changeDelay_spec s n hInv with ⟨t, heq, _, _, _, _, _, hI, hTp⟩
          rw [heq] at h
          cases h
          exact ⟨hI, hTp hT⟩
        · rw [dispatchAction, if_neg h1, if_neg h2, if_pos h3] at h
          simp only [hd, reduceCtorEq] at h
      · by_cases h4 : m.action = CHANGE_ANIMATION
        · rcases hd : m.data with url | n | v
          · rw [dispatchAction, if_neg h1, if_neg h2, if_neg h3, if_pos h4] at h
            simp only [hd, reduceCtorEq] at h
          · rw [dispatchAction, if_neg h1, if_neg h2, if_neg h3, if_pos h4] at h
            simp only [hd, reduceCtorEq] at h
          · rw [dispatchAction, if_neg h1, if_neg h2, if_neg h3, if_pos h4] at h
            simp only [hd] at h
            cases h
            exact ⟨hInv, timerInv_congr s _ rfl rfl rfl hT⟩
        · rw [dispatchAction, if_neg h1, if_neg h2, if_neg h3, if_neg h4] at h
          cases h
          exact ⟨hInv, hT⟩

theorem timerInv_erase (s : ReceiverState) (t : Nat) (hT : TimerInv s) :
    TimerInv { s with liveTimers := s.liveTimers.erase t } := by
  rcases hT with ⟨hpos, hnil | ⟨u, hu, hnit, hupos⟩⟩
  · refine ⟨hpos, Or.inl ?_⟩
    simp only
    rw [hnil]
    rfl
  · by_cases hut : u = t
    · refine ⟨hpos, Or.inl ?_⟩
      simp only
      rw [hu, hut]
      simp
    · refine ⟨hpos, Or.inr ⟨u, ?_, hnit, hupos⟩⟩
      simp only
      rw [hu]
      simp [List.erase_cons, hut]

theorem receiverReachable_inv (s : ReceiverState) (h : ReceiverReachable s) :
    SlideshowInv s.slideshow ∧ TimerInv s := by
  induction h with
  | init =>
    refine ⟨by decide, ⟨by decide, Or.inl rfl⟩⟩
  | step s1 s2 hr hs ih =>
    rcases ih with ⟨hI, hT⟩
    cases hs with
    | message m hm =>
      exact dispatchAction_preserves s1 s2 m hm hI hT
    | timerFires t hmem hshow =>
      have hT2 : TimerInv { s1 with liveTimers := s1.liveTimers.erase t } :=
        timerInv_erase s1 t hT
      have h1 : -1 ≤ ({ s1 with liveTimers := s1.liveTimers.erase t }).slideshow.currentImageIndex := by
        rcases hI with ⟨h0, _, _⟩
        simp only
        omega
      have h2 : 0 < ({ s1 with liveTimers := s1.liveTimers.erase t }).slideshow.images.length →
          ({ s1 with liveTimers := s1.liveTimers.erase t }).slideshow.currentImageIndex <
            (({ s1 with liveTimers := s1.liveTimers.erase t }).slideshow.images.length : Int) := by
        rcases hI with ⟨_, hlt, _⟩
        simp only
        exact hlt
      exact ⟨showNextImage_slideshowInv _ s2 h1 h2 hshow,
        showNextImage_timerInv _ s2 hT2 h1 h2 hshow⟩

/-- C2: the shared slideshow state is mutated only via the four message
kinds addImage, removeImage, changeDelay, changeAnimation: a received
message whose action is none of the four enum values falls through the
switch in addConnection's onmessage handler and leaves the whole receiver
state (in particular the slideshow object) exactly as it was. -/
theorem claim_C2_unknown_action_noop (s : ReceiverState) (m : JsonMessage)
    (h1 : m.action ≠ ADD_IMAGE) (h2 : m.action ≠ REMOVE_IMAGE)
    (h3 : m.action ≠ CHANGE_DELAY) (h4 : m.action ≠ CHANGE_ANIMATION) :
    dispatchAction s m = some s := by
  simp only [dispatchAction, if_neg h1, if_neg h2, if_neg h3, if_neg h4]

/-- Witness for C2: a concrete message with the unknown action
shuffleImages leaves the demo state unchanged. -/
theorem claim_C2_unknown_action_noop_witness :
    dispatchAction demoState { action := "shuffleImages", data := MsgData.num 7 } =
      some demoState :=
  claim_C2_unknown_action_noop demoState { action := "shuffleImages", data := MsgData.num 7 }
    (by decide) (by decide) (by decide) (by decide)

/-- C4: every slideshow operation (addImage, removeImage, changeDelay,
changeAnimation, showNextImage), run on a state whose index invariant
holds (currentImageIndex at least 0, strictly below the image count when
images exist, and 0 when the list is empty), completes without an
out-of-bounds array read (a some result: the embedding returns none
exactly when slideshow.images[currentImageIndex] or the preload index
would be read out of bounds) and reestablishes the invariant. -/
theorem claim_C4_index_invariant (s : ReceiverState) (op : SlideshowOp)
    (hInv : SlideshowInv s.slideshow) :
    ∃ s', applyOp s op = some s' ∧ SlideshowInv s'.slideshow := by
  cases op with
  | addOp url =>
    rcases addImage_spec s url hInv with ⟨t, heq, _, _, _, _, hI, _, _, _, _⟩
    exact ⟨t, heq, hI⟩
  | removeOp id =>
    rcases removeImage_spec s id hInv with ⟨hnone, hsome⟩
    rcases hfind : s.slideshow.images.findIdx? (fun image => (image.id : Int) = id) with _ | i
    · refine ⟨s, ?_, hInv⟩
      simp only [applyOp, hnone hfind, Option.map_some']
    · rcases hsome i hfind with ⟨t, heq, _, _, _, _, _, hI, _⟩
      refine ⟨t, ?_, hI⟩
      simp only [applyOp, heq, Option.map_some']
  | delayOp delay =>
    rcases changeDelay_spec s delay hInv with ⟨t, heq, _, _, _, _, _, hI, _⟩
    exact ⟨t, heq, hI⟩
  | animOp animation =>
    exact ⟨changeAnimation s animation, rfl, hInv⟩
  | showOp =>
    rcases hInv with ⟨h0, hlt, hempty⟩
    have h1 : -1 ≤ s.slideshow.currentImageIndex := by omega
    rcases showNextImage_spec s h1 hlt with ⟨t, heq, _, _, _, _, _, _, _, _⟩
    exact ⟨t, heq, showNextImage_slideshowInv s t h1 hlt heq⟩

/-- Witness for C4: the invariant holds on the demo state and is kept by
a concrete showNextImage step. -/
theorem claim_C4_index_invariant_witness :
    SlideshowInv demoState.slideshow ∧
      (∃ s', applyOp demoState SlideshowOp.showOp = some s' ∧ SlideshowInv s'.slideshow) :=
  ⟨by decide, claim_C4_index_invariant demoState SlideshowOp.showOp (by decide)⟩

/-- C6: at most one image-cycling timeout is ever pending. Every
invocation of showNextImage first clears the previously scheduled
timeout (clearTimeout on nextImageTimeout) before scheduling a new one,
so along every reachable execution of the receiver (messages arriving
and timers firing, from the initial state) the set of live timers never
holds two timers. -/
theorem claim_C6_single_timer (s : ReceiverState) (h : ReceiverReachable s) :
    s.liveTimers.length ≤ 1 := by
  rcases receiverReachable_inv s h with ⟨_, _, hnil | ⟨t, ht, _, _⟩⟩
  · rw [hnil]
    norm_num
  · rw [ht]
    norm_num

/-- Witness for C6: the initial receiver state is reachable and has at
most one pending timer. -/
theorem claim_C6_single_timer_witness :
    ReceiverReachable initialReceiverState ∧ initialReceiverState.liveTimers.length ≤ 1 :=
  ⟨ReceiverReachable.init, claim_C6_single_timer initialReceiverState ReceiverReachable.init⟩

/-- C1: after handling any well-formed message received on a presentation
connection, the onmessage handler broadcasts the slideshow state to every
connection in the connection list; because the slideshow is an object,
sendMessage JSON-stringifies it, so every connection receives the same
JSON-serialized state string (the serialization of the post-handler
slideshow). -/
theorem claim_C1_broadcast_same_string (s : ReceiverState) (connections : List Nat)
    (m : JsonMessage) (hwf : WellFormedMsg m) (hInv : SlideshowInv s.slideshow) :
    ∃ s' sends, connectionOnMessage s connections m = some (s', sends) ∧
      sends.map Prod.fst = connections ∧
      (∀ p ∈ sends, p.2 = slideshowToJson s'.slideshow) := by
  rcases dispatchAction_success s m hwf hInv with ⟨t, heq, _, _⟩
  refine ⟨t, broadcastMessage connections (JsValue.objVal t.slideshow), ?_, ?_, ?_⟩
  · simp only [connectionOnMessage, heq]
  · simp only [broadcastMessage, sendMessage, List.map_map]
    exact List.map_id connections
  · intro p hp
    simp only [broadcastMessage, sendMessage, List.mem_map] at hp
    rcases hp with ⟨c, _, hpc⟩
    rw [← hpc]

/-- Witness for C1: a concrete changeAnimation message on the demo state
with two connections: both connections receive the same serialized
state. -/
theorem claim_C1_broadcast_same_string_witness :
    WellFormedMsg { action := CHANGE_ANIMATION, data := MsgData.str "bounce" } ∧
    SlideshowInv demoState.slideshow ∧
    (∃ s' sends,
      connectionOnMessage demoState [5, 9]
          { action := CHANGE_ANIMATION, data := MsgData.str "bounce" } = some (s', sends) ∧
      sends.map Prod.fst = [5, 9] ∧
      (∀ p ∈ sends, p.2 = slideshowToJson s'.slideshow)) :=
  ⟨⟨fun h => absurd h (by decide), fun h => absurd h (by decide),
      fun h => absurd h (by decide), fun _ => ⟨"bounce", rfl⟩⟩,
    by decide,
    claim_C1_broadcast_same_string demoState [5, 9]
      { action := CHANGE_ANIMATION, data := MsgData.str "bounce" }
      ⟨fun h => absurd h (by decide), fun h => absurd h (by decide),
        fun h => absurd h (by decide), fun _ => ⟨"bounce", rfl⟩⟩
      (by decide)⟩

/-- C3: the slideshow loops: on a nonempty image list showNextImage moves
currentImageIndex to (currentImageIndex + 1) mod length (it increments
by one and wraps to 0 when the incremented index reaches the number of
images), so repeated invocations visit the images cyclically; on an
empty list it clears the slideshow display instead. -/
theorem claim_C3_cyclic (s : ReceiverState) (hInv : SlideshowInv s.slideshow) :
    (0 < s.slideshow.images.length →
      ∃ s', showNextImage s = some s' ∧
        s'.slideshow.images = s.slideshow.images ∧
        s'.slideshow.currentImageIndex =
          (s.slideshow.currentImageIndex + 1) % (s.slideshow.images.length : Int)) ∧
    (s.slideshow.images.length = 0 →
      ∃ s', showNextImage s = some s' ∧
        s'.events = s.events ++ [DisplayEvent.clearDisplay]) := by
  rcases hInv with ⟨h0, hlt, hempty⟩
  have h1 : -1 ≤ s.slideshow.currentImageIndex := by omega
  rcases showNextImage_spec s h1 hlt with ⟨t, heq, him, _, _, _, hcur, _, _, _, hev⟩
  constructor
  · intro hpos
    refine ⟨t, heq, him, ?_⟩
    rw [hcur]
    have hc := hlt hpos
    by_cases hge : s.slideshow.currentImageIndex + 1 ≥ (s.slideshow.images.length : Int)
    · rw [if_pos hge]
      have hx : s.slideshow.currentImageIndex + 1 = (s.slideshow.images.length : Int) := by
        omega
      rw [hx, Int.emod_self]
    · rw [if_neg hge]
      rw [Int.emod_eq_of_lt (by omega) (by omega)]
  · intro hz
    rcases hev with ⟨_, hevents⟩ | ⟨habs, _⟩
    · exact ⟨t, heq, hevents⟩
    · omega

/-- Witness for C3: on the demo state (two images, index 0) the next
index is 1 = (0 + 1) mod 2. -/
theorem claim_C3_cyclic_witness :
    SlideshowInv demoState.slideshow ∧
    ((0 < demoState.slideshow.images.length →
      ∃ s', showNextImage demoState = some s' ∧
        s'.slideshow.images = demoState.slideshow.images ∧
        s'.slideshow.currentImageIndex =
          (demoState.slideshow.currentImageIndex + 1) %
            (demoState.slideshow.images.length : Int)) ∧
     (demoState.slideshow.images.length = 0 →
      ∃ s', showNextImage demoState = some s' ∧
        s'.events = demoState.events ++ [DisplayEvent.clearDisplay])) :=
  ⟨by decide, claim_C3_cyclic demoState (by decide)⟩

/-- C9: preloading. Whenever showNextImage shows an image while the
slideshow holds more than one image, it also preloads the cyclic
successor of the shown image (a new Image() with the successor's url);
with at most one image no new preload is issued by showNextImage; and
addImage preloads exactly the newly added image when currentImageIndex
plus 2 equals the new list length, while adding the first image to an
empty slideshow issues a show but no preload. -/
theorem claim_C9_preload (s : ReceiverState) (hInv : SlideshowInv s.slideshow) :
    (1 < s.slideshow.images.length →
      ∃ s' shown next, showNextImage s = some s' ∧
        jsIndex s.slideshow.images s'.slideshow.currentImageIndex = some shown ∧
        jsIndex s.slideshow.images
          ((s'.slideshow.currentImageIndex + 1) % (s.slideshow.images.length : Int)) =
          some next ∧
        s'.events = s.events ++
          [DisplayEvent.showImage shown.url s.slideshow.animation,
           DisplayEvent.preloadImage next.url]) ∧
    (s.slideshow.images.length ≤ 1 →
      ∀ s', showNextImage s = some s' →
        ∀ u, DisplayEvent.preloadImage u ∈ s'.events →
          DisplayEvent.preloadImage u ∈ s.events) ∧
    (∀ url, s.slideshow.currentImageIndex + 2 = (s.slideshow.images.length : Int) + 1 →
      ∃ s', addImage s url = some s' ∧
        s'.events = s.events ++ [DisplayEvent.preloadImage url]) ∧
    (s.slideshow.images.length = 0 → ∀ url,
      ∃ s', addImage s url = some s' ∧
        s'.events = s.events ++ [DisplayEvent.showImage url s.slideshow.animation]) := by
  have hInv' := hInv
  rcases hInv' with ⟨h0, hlt, hempty⟩
  have h1 : -1 ≤ s.slideshow.currentImageIndex := by omega
  rcases showNextImage_spec s h1 hlt with ⟨t, heq, him, _, _, _, hcur, _, _, _, hev⟩
  refine ⟨?_, ?_, ?_, ?_⟩
  · intro hgt
    have hc := hlt (by omega)
    have htcur : 0 ≤ t.slideshow.currentImageIndex ∧
        t.slideshow.currentImageIndex < (s.slideshow.images.length : Int) := by
      rw [hcur]
      constructor <;> split <;> omega
    rcases hev with ⟨habs, _⟩ | ⟨_, shown, hshown, hev2⟩
    · omega
    · rcases hev2 with ⟨habs, _⟩ | ⟨_, next, hnext, hevents⟩
      · omega
      · refine ⟨t, shown, next, heq, hshown, ?_, hevents⟩
        have harg : (if t.slideshow.currentImageIndex + 1 ≥ (s.slideshow.images.length : Int)
              then 0 else t.slideshow.currentImageIndex + 1) =
            (t.slideshow.currentImageIndex + 1) % (s.slideshow.images.length : Int) := by
          by_cases hge : t.slideshow.currentImageIndex + 1 ≥ (s.slideshow.images.length : Int)
          · rw [if_pos hge]
            have hx : t.slideshow.currentImageIndex + 1 =
                (s.slideshow.images.length : Int) := by omega
            rw [hx, Int.emod_self]
          · rw [if_neg hge]
            rw [Int.emod_eq_of_lt (by omega) (by omega)]
        rw [← harg]
        exact hnext
  · intro hle s' hs' u hu
    rw [heq] at hs'
    cases hs'
    rcases hev with ⟨_, hevents⟩ | ⟨hpos, shown, _, hev2⟩
    · rw [hevents] at hu
      simp only [List.mem_append, List.mem_singleton] at hu
      rcases hu with hu | hu
      · exact hu
      · cases hu
    · rcases hev2 with ⟨_, hevents⟩ | ⟨habs, _⟩
      · rw [hevents] at hu
        simp only [List.mem_append, List.mem_singleton] at hu
        rcases hu with hu | hu
        · exact hu
        · cases hu
      · omega
  · intro url hc2
    rcases addImage_spec s url hInv with ⟨t2, heq2, _, _, _, _, _, _, hevpre, _, _⟩
    exact ⟨t2, heq2, hevpre (by omega)⟩
  · intro hz url
    rcases addImage_spec s url hInv with ⟨t2, heq2, _, _, _, _, _, _, _, hevempty, _⟩
    exact ⟨t2, heq2, hevempty hz⟩

/-- Witness for C9: evaluated on the demo state (two images, a pending
preload of the cyclic successor). -/
theorem claim_C9_preload_witness :
    SlideshowInv demoState.slideshow ∧
    ((1 < demoState.slideshow.images.length →
      ∃ s' shown next, showNextImage demoState = some s' ∧
        jsIndex demoState.slideshow.images s'.slideshow.currentImageIndex = some shown ∧
        jsIndex demoState.slideshow.images
          ((s'.slideshow.currentImageIndex + 1) %
            (demoState.slideshow.images.length : Int)) = some next ∧
        s'.events = demoState.events ++
          [DisplayEvent.showImage shown.url demoState.slideshow.animation,
           DisplayEvent.preloadImage next.url]) ∧
     (demoState.slideshow.images.length ≤ 1 →
      ∀ s', showNextImage demoState = some s' →
        ∀ u, DisplayEvent.preloadImage u ∈ s'.events →
          DisplayEvent.preloadImage u ∈ demoState.events) ∧
     (∀ url, demoState.slideshow.currentImageIndex + 2 =
        (demoState.slideshow.images.length : Int) + 1 →
      ∃ s', addImage demoState url = some s' ∧
        s'.events = demoState.events ++ [DisplayEvent.preloadImage url]) ∧
     (demoState.slideshow.images.length = 0 → ∀ url,
      ∃ s', addImage demoState url = some s' ∧
        s'.events = demoState.events ++
          [DisplayEvent.showImage url demoState.slideshow.animation])) :=
  ⟨by decide, claim_C9_preload demoState (by decide)⟩

/-- C5 counterexample: on the demo state (images a and b with ids 0 and
1, currentImageIndex 0) removing id 0 removes the image at position 0,
which is AT the current index, yet the final currentImageIndex is 0,
exactly the value it had before: it is not decremented, because the
handler's decrement is immediately undone by the showNextImage call in
the same branch. This refutes the claim that removeImage leaves the
index decremented whenever the removed position was at or before the
current one. -/
theorem claim_C5_counterexample :
    (removeImage demoState 0).map
        (fun p => (p.1.slideshow.currentImageIndex, p.1.slideshow.images, p.2)) =
      some (0, [{ url := "b", id := 1 }], true) ∧
    demoState.slideshow.currentImageIndex = 0 ∧
    demoState.slideshow.images.findIdx? (fun image => (image.id : Int) = 0) = some 0 := by
  decide

/-- C5 (amended): removeImage(id) removes exactly the first image whose
id equals the given id and returns true; afterwards currentImageIndex is
decremented when the removed position was strictly before it, unchanged
when the removed position was after it, and when the removed position
equals the current index the handler decrements and immediately
re-advances through showNextImage, so the index ends at its old value,
wrapping to 0 when that value falls outside the shortened list; when no
image has that id, it returns false and the state (images list and
currentImageIndex included) is unchanged. -/
theorem claim_C5_remove_first_match (s : ReceiverState) (id : Int)
    (hInv : SlideshowInv s.slideshow) :
    (s.slideshow.images.findIdx? (fun image => (image.id : Int) = id) = none →
      removeImage s id = some (s, false)) ∧
    (∀ imageIndex,
      s.slideshow.images.findIdx? (fun image => (image.id : Int) = id) = some imageIndex →
      ∃ s', removeImage s id = some (s', true) ∧
        s'.slideshow.images = s.slideshow.images.eraseIdx imageIndex ∧
        s'.slideshow.delay = s.slideshow.delay ∧
        s'.slideshow.animation = s.slideshow.animation ∧
        s'.imageSequence = s.imageSequence ∧
        s'.slideshow.currentImageIndex =
          (if (imageIndex : Int) < s.slideshow.currentImageIndex then
             s.slideshow.currentImageIndex - 1
           else if (imageIndex : Int) = s.slideshow.currentImageIndex then
             (if s.slideshow.currentImageIndex ≥ (s.slideshow.images.length : Int) - 1 then 0
              else s.slideshow.currentImageIndex)
           else s.slideshow.currentImageIndex) ∧
        SlideshowInv s'.slideshow ∧
        (TimerInv s → TimerInv s')) :=
  removeImage_spec s id hInv

/-- Witness for the amended C5: evaluated on the demo state with a
missing id and with both present ids. -/
theorem claim_C5_remove_first_match_witness :
    SlideshowInv demoState.slideshow ∧
    ((demoState.slideshow.images.findIdx? (fun image => (image.id : Int) = 5) = none →
      removeImage demoState 5 = some (demoState, false)) ∧
     (∀ imageIndex,
      demoState.slideshow.images.findIdx? (fun image => (image.id : Int) = 5) =
        some imageIndex →
      ∃ s', removeImage demoState 5 = some (s', true) ∧
        s'.slideshow.images = demoState.slideshow.images.eraseIdx imageIndex ∧
        s'.slideshow.delay = demoState.slideshow.delay ∧
        s'.slideshow.animation = demoState.slideshow.animation ∧
        s'.imageSequence = demoState.imageSequence ∧
        s'.slideshow.currentImageIndex =
          (if (imageIndex : Int) < demoState.slideshow.currentImageIndex then
             demoState.slideshow.currentImageIndex - 1
           else if (imageIndex : Int) = demoState.slideshow.currentImageIndex then
             (if demoState.slideshow.currentImageIndex ≥
                  (demoState.slideshow.images.length : Int) - 1 then 0
              else demoState.slideshow.currentImageIndex)
           else demoState.slideshow.currentImageIndex) ∧
        SlideshowInv s'.slideshow ∧
        (TimerInv demoState → TimerInv s'))) :=
  ⟨by decide, claim_C5_remove_first_match demoState 5 (by decide)⟩

end Photowall

namespace PresentationPolyfill

/-- C7: on every NEW_CONNECTION window message the polyfill appends a
fresh presentation connection in state connected (empty id, origin and
source captured from the event) to the connection list; the
connectionList promise is resolved exactly on the first such message
(the resolved flag flips and the promiseResolved effect fires only when
it was not yet set), and on every later NEW_CONNECTION message the
list's onconnectionavailable handler, when set, is invoked with the
newly created connection. -/
theorem claim_C7_new_connection (st : PolyfillState) (e : WindowMessage)
    (h : e.msgType = "NEW_CONNECTION") :
    ∃ c : PresentationConnection, c.state = "connected" ∧ c.id = "" ∧
      c.messageOrigin = e.origin ∧ c.messageSource = e.source ∧
      (handleWindowMessage st e).1.connectionList.connections =
        st.connectionList.connections ++ [c] ∧
      (handleWindowMessage st e).1.connectionListResolved = true ∧
      (st.connectionListResolved = false →
        (handleWindowMessage st e).2 = [PolyfillEvent.promiseResolved]) ∧
      (st.connectionListResolved = true →
        st.connectionList.onconnectionavailable = true →
          (handleWindowMessage st e).2 = [PolyfillEvent.connectionAvailable c]) ∧
      (st.connectionListResolved = true →
        st.connectionList.onconnectionavailable = false →
          (handleWindowMessage st e).2 = []) := by
  refine ⟨⟨"", "connected", false, e.origin, e.source⟩, rfl, rfl, rfl, rfl, ?_, ?_, ?_, ?_, ?_⟩
  · by_cases hres : st.connectionListResolved = false
    · simp [handleWindowMessage, h, hres]
    · by_cases hav : st.connectionList.onconnectionavailable = true
      · simp [handleWindowMessage, h, hres, hav]
      · simp [handleWindowMessage, h, hres, hav]
  · by_cases hres : st.connectionListResolved = false
    · simp [handleWindowMessage, h, hres]
    · by_cases hav : st.connectionList.onconnectionavailable = true
      · simp [handleWindowMessage, h, hres, hav]
      · simp [handleWindowMessage, h, hres, hav]
  · intro hres
    simp [handleWindowMessage, h, hres]
  · intro hres hav
    simp [handleWindowMessage, h, hres, hav]
  · intro hres hav
    simp [handleWindowMessage, h, hres, hav]

/-- Witness for C7: a concrete NEW_CONNECTION message on the initial
polyfill state. -/
theorem claim_C7_new_connection_witness :
    ∃ c : PresentationConnection, c.state = "connected" ∧ c.id = "" ∧
      c.messageOrigin = "https://sender.example" ∧ c.messageSource = 7 ∧
      (handleWindowMessage initialPolyfillState
        { msgType := "NEW_CONNECTION", data := "", origin := "https://sender.example",
          source := 7 }).1.connectionList.connections =
        initialPolyfillState.connectionList.connections ++ [c] ∧
      (handleWindowMessage initialPolyfillState
        { msgType := "NEW_CONNECTION", data := "", origin := "https://sender.example",
          source := 7 }).1.connectionListResolved = true ∧
      (initialPolyfillState.connectionListResolved = false →
        (handleWindowMessage initialPolyfillState
          { msgType := "NEW_CONNECTION", data := "", origin := "https://sender.example",
            source := 7 }).2 = [PolyfillEvent.promiseResolved]) ∧
      (initialPolyfillState.connectionListResolved = true →
        initialPolyfillState.connectionList.onconnectionavailable = true →
          (handleWindowMessage initialPolyfillState
            { msgType := "NEW_CONNECTION", data := "", origin := "https://sender.example",
              source := 7 }).2 = [PolyfillEvent.connectionAvailable c]) ∧
      (initialPolyfillState.connectionListResolved = true →
        initialPolyfillState.connectionList.onconnectionavailable = false →
          (handleWindowMessage initialPolyfillState
            { msgType := "NEW_CONNECTION", data := "", origin := "https://sender.example",
              source := 7 }).2 = []) :=
  claim_C7_new_connection initialPolyfillState
    { msgType := "NEW_CONNECTION", data := "", origin := "https://sender.example",
      source := 7 } rfl

/-- C8: every APP_MESSAGE window message leaves the polyfill state
unchanged and is delivered, as a MessageEvent carrying the message's
data, to exactly the connections of the connection list whose onmessage
handler is set, regardless of which origin or source the window message
came from. -/
theorem claim_C8_app_message_fanout (st : PolyfillState) (e : WindowMessage)
    (h : e.msgType = "APP_MESSAGE") :
    (handleWindowMessage st e).1 = st ∧
    (∀ i c, st.connectionList.connections.get? i = some c →
      (c.onmessage = true ↔
        PolyfillEvent.messageDelivered i e.data ∈ (handleWindowMessage st e).2)) ∧
    (∀ origin' source',
      handleWindowMessage st
        { msgType := e.msgType, data := e.data, origin := origin', source := source' } =
      handleWindowMessage st e) := by
  have hne : ¬(e.msgType = "NEW_CONNECTION") := by
    rw [h]
    decide
  refine ⟨?_, ?_, ?_⟩
  · simp [handleWindowMessage, hne, h]
  · intro i c hget
    constructor
    · intro honmsg
      simp only [handleWindowMessage, if_neg hne, if_pos h]
      exact List.mem_filterMap.mpr ⟨(i, c), List.mem_enum_iff_get?.mpr hget, by simp [honmsg]⟩
    · intro hmem
      simp only [handleWindowMessage, if_neg hne, if_pos h] at hmem
      rcases List.mem_filterMap.mp hmem with ⟨⟨j, c'⟩, hjc, hf⟩
      by_cases hon : c'.onmessage = true
      · rw [if_pos hon] at hf
        have hji : j = i := by
          have := Option.some.inj hf
          cases this
          rfl
        have hc' : st.connectionList.connections.get? j = some c' :=
          List.mem_enum_iff_get?.mp hjc
        rw [hji, hget] at hc'
        cases Option.some.inj hc'
        exact hon
      · rw [if_neg hon] at hf
        cases hf
  · intro origin' source'
    simp [handleWindowMessage, hne, h]

/-- Witness for C8: a two-connection list where only the second
connection has an onmessage handler; the message is delivered exactly
to it. -/
theorem claim_C8_app_message_fanout_witness :
    ({ msgType := "APP_MESSAGE", data := "payload", origin := "o", source := 1 } :
        WindowMessage).msgType = "APP_MESSAGE" ∧
    ((handleWindowMessage
        { connectionList :=
            { connections :=
                [{ id := "", state := "connected", onmessage := false,
                   messageOrigin := "o1", messageSource := 1 },
                 { id := "", state := "connected", onmessage := true,
                   messageOrigin := "o2", messageSource := 2 }],
              onconnectionavailable := false },
          connectionListResolved := true }
        { msgType := "APP_MESSAGE", data := "payload", origin := "o", source := 1 }).1 =
      { connectionList :=
          { connections :=
              [{ id := "", state := "connected", onmessage := false,
                 messageOrigin := "o1", messageSource := 1 },
               { id := "", state := "connected", onmessage := true,
                 messageOrigin := "o2", messageSource := 2 }],
            onconnectionavailable := false },
        connectionListResolved := true }) ∧
    (handleWindowMessage
        { connectionList :=
            { connections :=
                [{ id := "", state := "connected", onmessage := false,
                   messageOrigin := "o1", messageSource := 1 },
                 { id := "", state := "connected", onmessage := true,
                   messageOrigin := "o2", messageSource := 2 }],
              onconnectionavailable := false },
          connectionListResolved := true }
        { msgType := "APP_MESSAGE", data := "payload", origin := "o", source := 1 }).2 =
      [PolyfillEvent.messageDelivered 1 "payload"] :=
  ⟨rfl, (claim_C8_app_message_fanout _ _ rfl).1, by decide⟩

end PresentationPolyfill

namespace PhotowallVariant

open Photowall

/-- C10 counterexample: the two receiver variants are not behaviorally
equivalent at connection registration. addConnection of receiver.js
sends the serialized slideshow state to the new connection immediately,
while addConnection of the src/unnamed/part_000 variant performs no send
at registration: it only installs an onconnect handler (which the
polyfill never invokes). Evaluated at the initial slideshow and
connection 0. -/
theorem claim_C10_counterexample :
    (addConnectionMain Photowall.initialSlideshow 0).immediateSends =
      [(0, Photowall.slideshowToJson Photowall.initialSlideshow)] ∧
    (addConnectionVariant Photowall.initialSlideshow 0).immediateSends = [] ∧
    (addConnectionMain Photowall.initialSlideshow 0).immediateSends ≠
      (addConnectionVariant Photowall.initialSlideshow 0).immediateSends := by
  refine ⟨rfl, rfl, ?_⟩
  decide

/-- C10 (amended): the part_000 variant sends nothing during
addConnection; it installs an onconnect handler whose sends, when fired,
are exactly the sends receiver.js performs immediately; and the
onmessage handlers installed by the two variants handle every subsequent
message identically (the dispatch switches are equal as functions). -/
theorem claim_C10_deferred_send_equivalence :
    (∀ (sl : Slideshow) (connection : Nat),
      (addConnectionVariant sl connection).immediateSends = [] ∧
      (addConnectionVariant sl connection).onconnectSet = true ∧
      (addConnectionVariant sl connection).onconnectSends =
        (addConnectionMain sl connection).immediateSends) ∧
    (∀ (s : ReceiverState) (m : JsonMessage), dispatchActionV s m = dispatchAction s m) :=
  ⟨fun _ _ => ⟨rfl, rfl, rfl⟩, fun _ _ => rfl⟩

end PhotowallVariant
